import Mathlib

/-!
Verification of `ml_wrappers/model/image_model_wrapper.py`.

This file gives a shallow embedding of the image-model wrapper module:
the wrapper factory `_wrap_image_model`, the fastai image-classification
adapter, the generic transformer adapter, the MLflow AutoML-vision
adapter and the object-detection adapter, together with theorems about
the documented properties of those operations.

Numpy arrays are modelled as finitely branching trees (`NDArray`), numpy
scalars as an inductive of Python ints, bools and floats (`PVal`, floats
taken as rationals), and the external native models as plain Lean
functions supplied as parameters.
-/

/-- A numpy ndarray, modelled as a finitely branching tree: a 0-d array
is a `scalar`, an n-d array is a `node` whose children are its (n-1)-d
rows.  Rectangularity is not enforced by the type; the embedded code
only ever builds rectangular values. -/
inductive NDArray (α : Type) : Type where
  | scalar (v : α)
  | node (rows : List (NDArray α))

/-- `a.ndim` for the tree model: depth along the first child, matching
numpy's `len(a.shape)` on rectangular arrays (`np.array([])` has
ndim 1). -/
def ndim {α : Type} : NDArray α → Nat
  | .scalar _ => 0
  | .node [] => 1
  | .node (r :: _) => 1 + ndim r

mutual

/-- The scalar entries of an array in row-major (C) order, as read by
`numpy.ndarray.flatten`. -/
def scalars {α : Type} : NDArray α → List α
  | .scalar v => [v]
  | .node rows => scalarsList rows

/-- Scalar entries of a list of arrays, concatenated in order. -/
def scalarsList {α : Type} : List (NDArray α) → List α
  | [] => []
  | r :: rs => scalars r ++ scalarsList rs

end

/-- `a.flatten()`: the 1-d array of all scalar entries in row-major
order. -/
def npFlatten {α : Type} (a : NDArray α) : NDArray α :=
  .node ((scalars a).map .scalar)

/-- `len(a)` on a numpy array: the extent of the first axis. -/
def nlen {α : Type} : NDArray α → Nat
  | .scalar _ => 0
  | .node rows => rows.length

/-- A Python value stored in a numpy array produced by a fastai model:
an int, a bool, or a float (modelled as a rational). -/
inductive PVal : Type where
  | pint (n : Int)
  | pbool (b : Bool)
  | prat (q : ℚ)
deriving DecidableEq

/-- Whether a scalar entry is a Python bool. -/
def pvalIsBool : PVal → Bool
  | .pbool _ => true
  | _ => false

/-- `int(v)` on a bool entry (True ↦ 1, False ↦ 0); other entries are
left unchanged (`astype(int)` is only invoked on bool-dtype arrays in
the embedded code). -/
def pvalToInt : PVal → PVal
  | .pbool b => .pint (if b then 1 else 0)
  | v => v

/-- `a.dtype == bool` for an array built from model-output entries: the
array is nonempty and every entry is a Python bool (numpy arrays are
homogeneous; an empty `np.array([])` has float dtype). -/
def dtypeIsBool (a : NDArray PVal) : Bool :=
  !(scalars a).isEmpty && (scalars a).all pvalIsBool

mutual

/-- `a.astype(int)` applied entrywise. -/
def astypeInt : NDArray PVal → NDArray PVal
  | .scalar v => .scalar (pvalToInt v)
  | .node rows => .node (astypeIntList rows)

/-- `astypeInt` mapped over a list of arrays. -/
def astypeIntList : List (NDArray PVal) → List (NDArray PVal)
  | [] => []
  | r :: rs => astypeInt r :: astypeIntList rs

end

/-- A native fastai learner, modelled by its `predict` method: on a
single image it returns the result tuple that the wrapper indexes
(index 1 = discrete prediction, index 2 = probability vector). -/
structure FastaiModel where
  predict : NDArray PVal → List (NDArray PVal)

/-- The non-batched branch of
`WrappedFastAIImageClassificationModel._fastai_predict` (source lines
173-181): `predictions = np.array(self._model.predict(dataset)[index])`;
a 0-d result is reshaped to shape `(1)`; for `index == 1`, bool-dtype
predictions are cast to int. -/
def fastaiSingle (m : FastaiModel) (index : Nat) (dataset : NDArray PVal) : NDArray PVal :=
  let predictions := (m.predict dataset).getD index (.node [])
  let predictions := if ndim predictions = 0 then NDArray.node [predictions] else predictions
  if index = 1 then
    if dtypeIsBool predictions then astypeInt predictions else predictions
  else predictions

mutual

/-- `WrappedFastAIImageClassificationModel._fastai_predict` (source
lines 152-181): a 4-d dataset is predicted row by row recursively and
the per-row results collected with `np.array`; for `index == 1` outside
multilabel mode the collected result is flattened.  Anything that is not
4-d goes to the single-image branch `fastaiSingle`. -/
def fastaiPredictAux (m : FastaiModel) (multilabel : Bool) (index : Nat) :
    NDArray PVal → NDArray PVal
  | .node rows =>
    if ndim (NDArray.node rows) = 4 then
      let predictions := NDArray.node (fastaiPredictList m multilabel index rows)
      if index = 1 ∧ multilabel = false then npFlatten predictions else predictions
    else fastaiSingle m index (.node rows)
  | .scalar v => fastaiSingle m index (.scalar v)

/-- The `for row in dataset: predictions.append(self._fastai_predict(row, index))`
loop of the 4-d branch, in order. -/
def fastaiPredictList (m : FastaiModel) (multilabel : Bool) (index : Nat) :
    List (NDArray PVal) → List (NDArray PVal)
  | [] => []
  | r :: rs =>
      fastaiPredictAux m multilabel index r :: fastaiPredictList m multilabel index rs

end

/-- `WrappedFastAIImageClassificationModel.predict`: `_fastai_predict`
at index 1. -/
def fastaiPredict (m : FastaiModel) (multilabel : Bool) (dataset : NDArray PVal) :
    NDArray PVal :=
  fastaiPredictAux m multilabel 1 dataset

/-- `WrappedFastAIImageClassificationModel.predict_proba`:
`_fastai_predict` at index 2. -/
def fastaiPredictProba (m : FastaiModel) (multilabel : Bool) (dataset : NDArray PVal) :
    NDArray PVal :=
  fastaiPredictAux m multilabel 2 dataset

-- Basic lemmas about the list-level helpers.

theorem fastaiPredictList_eq_map (m : FastaiModel) (multilabel : Bool) (index : Nat)
    (l : List (NDArray PVal)) :
    fastaiPredictList m multilabel index l = l.map (fastaiPredictAux m multilabel index) := by
  induction l with
  | nil => rfl
  | cons r rs ih => simp [fastaiPredictList, ih]

theorem scalarsList_eq_join (α : Type) (l : List (NDArray α)) :
    scalarsList l = (l.map scalars).flatten := by
  induction l with
  | nil => rfl
  | cons r rs ih => simp [scalarsList, ih]

theorem scalars_npFlatten (α : Type) (a : NDArray α) :
    scalars (npFlatten a) = scalars a := by
  show scalarsList ((scalars a).map NDArray.scalar) = scalars a
  induction scalars a with
  | nil => rfl
  | cons v vs ih => simp [scalarsList, scalars, ih]

theorem ndim_npFlatten (α : Type) (a : NDArray α) : ndim (npFlatten a) = 1 := by
  show ndim (.node ((scalars a).map NDArray.scalar)) = 1
  cases scalars a with
  | nil => rfl
  | cons v vs => rfl

/-- `np.argmax` on a 1-d vector: the index of the first occurrence of
the maximum (`argmaxGo` carries best index, best value and the index of
the next element). -/
def argmaxGo (best : Nat) (bestVal : ℚ) (cur : Nat) : List ℚ → Nat
  | [] => best
  | v :: vs => if bestVal < v then argmaxGo cur v (cur + 1) vs else argmaxGo best bestVal (cur + 1) vs

/-- `np.argmax(l)` for a 1-d vector `l` (0 on the empty vector, on
which numpy raises instead). -/
def argmaxIdx : List ℚ → Nat
  | [] => 0
  | v :: vs => argmaxGo 0 v 1 vs

/-- The scalar stored at the top of a 0-d array (0 on a node, which
does not occur on the shapes the embedded code handles). -/
def sval : NDArray ℚ → ℚ
  | .scalar q => q
  | .node _ => 0

/-- The entries of a 1-d array of scalars. -/
def topVals : NDArray ℚ → List ℚ
  | .node rows => rows.map sval
  | .scalar _ => []

/-- `np.argmax(a, axis=1)` on a 2-d array, as invoked by
`WrappedTransformerImageClassificationModel.predict` (source line 125):
one argmax index per row.  On non-2-d values this embedding returns
junk; the theorems only apply it under a 2-d hypothesis, the shape the
wrapper's classification contract supplies. -/
def npArgmaxAxis1 (a : NDArray ℚ) : NDArray ℚ :=
  match a with
  | .node rows => .node (rows.map fun row => .scalar ((argmaxIdx (topVals row) : ℕ) : ℚ))
  | .scalar _ => .scalar 0

mutual

/-- `np.argmax(a, axis=-1)`: the arg-max taken over the last axis,
written from the spec sentence "arg-max over the last axis of the
native call's raw output" to compare against the code's `axis=1`:
recurse until the children are scalars, then take the 1-d argmax. -/
def npArgmaxLastAxis : NDArray ℚ → NDArray ℚ
  | .scalar _ => .scalar 0
  | .node [] => .node []
  | .node (x :: xs) =>
    match x with
    | .scalar _ => .scalar ((argmaxIdx ((x :: xs).map sval) : ℕ) : ℚ)
    | .node _ => .node (npArgmaxLastAxisList (x :: xs))

/-- `npArgmaxLastAxis` mapped over the rows of an array. -/
def npArgmaxLastAxisList : List (NDArray ℚ) → List (NDArray ℚ)
  | [] => []
  | r :: rs => npArgmaxLastAxis r :: npArgmaxLastAxisList rs

end

/-- Whether an array is a 0-d scalar. -/
def isScalar {α : Type} : NDArray α → Bool
  | .scalar _ => true
  | .node _ => false

/-- A nonempty 1-d row of scalars. -/
def rowOfScalars {α : Type} : NDArray α → Bool
  | .node (x :: xs) => (x :: xs).all isScalar
  | _ => false

/-- A 2-d array all of whose rows are nonempty rows of scalars: the
shape of a batch of per-class score vectors. -/
def is2D {α : Type} : NDArray α → Bool
  | .node rows => rows.all rowOfScalars
  | .scalar _ => false

/-- `WrappedTransformerImageClassificationModel.predict` (source lines
117-125): `np.argmax(self._model(dataset), axis=1)`.  The native model
is a parameter; the dataset is passed to it unchanged. -/
def transformerPredict {β : Type} (model : β → NDArray ℚ) (dataset : β) : NDArray ℚ :=
  npArgmaxAxis1 (model dataset)

/-- `WrappedTransformerImageClassificationModel.predict_proba` (source
lines 127-135): `self._model(dataset)`, the raw output unchanged. -/
def transformerPredictProba {β : Type} (model : β → NDArray ℚ) (dataset : β) : NDArray ℚ :=
  model dataset

/-- `WrappedMlflowAutomlImagesClassificationModel.predict` (source
lines 226-235): the native `predict` returns a frame whose `probs`
column holds one probability vector per row; the wrapper maps
`np.argmax` over that column.  The native model is embedded as the
function taking the dataset to the `probs` column, one vector per
dataset row, in row order. -/
def mlflowPredict {β : Type} (model : List β → List (List ℚ)) (dataset : List β) : List Nat :=
  (model dataset).map argmaxIdx

/-- `WrappedMlflowAutomlImagesClassificationModel.predict_proba`
(source lines 237-246): `np.stack(predictions.probs.values)`, i.e. the
per-row probability vectors stacked into a 2-d array with rows in input
order — on the row-list representation the stack of the rows is the
row list itself. -/
def mlflowPredictProba {β : Type} (model : List β → List (List ℚ)) (dataset : List β) :
    List (List ℚ) :=
  model dataset

/-- An axis-aligned box in `(x1, y1, x2, y2)` corner format, the format
`torchvision.ops.nms` consumes. -/
structure Box where
  x1 : ℚ
  y1 : ℚ
  x2 : ℚ
  y2 : ℚ
deriving DecidableEq

/-- One per-image native detection result: the `boxes`, `scores` and
`labels` entries of `detections[0]` (labels appear as floats once
concatenated by `torch.cat`). -/
structure Detection where
  boxes : List Box
  scores : List ℚ
  labels : List ℚ
deriving DecidableEq

/-- Intersection-over-union of two corner-format boxes, with widths and
heights clamped at 0, as computed by torchvision's box IoU. -/
def iou (a b : Box) : ℚ :=
  let iw := max 0 (min a.x2 b.x2 - max a.x1 b.x1)
  let ih := max 0 (min a.y2 b.y2 - max a.y1 b.y1)
  let inter := iw * ih
  let uni := (a.x2 - a.x1) * (a.y2 - a.y1) + (b.x2 - b.x1) * (b.y2 - b.y1) - inter
  inter / uni

/-- Insert index `i` into a list of indices sorted by strictly
descending score, keeping earlier equal-scored indices first. -/
def insertByScore (scores : List ℚ) (i : Nat) : List Nat → List Nat
  | [] => [i]
  | j :: js => if scores.getD j 0 < scores.getD i 0 then i :: j :: js else j :: insertByScore scores i js

/-- Indices `0, ..., n-1` sorted by descending score, the candidate
order scanned by `torchvision.ops.nms`. -/
def argsortDesc (scores : List ℚ) : List Nat :=
  (List.range scores.length).foldr (insertByScore scores) []

/-- The greedy suppression loop of `torchvision.ops.nms`: keep the
highest-scoring remaining candidate and drop every remaining candidate
whose IoU with it exceeds the threshold.  The fuel starts at the number
of candidates, which the loop never exhausts early since each step
consumes at least one candidate. -/
def nmsGo (boxes : List Box) (t : ℚ) : Nat → List Nat → List Nat
  | 0, _ => []
  | _, [] => []
  | Nat.succ fuel, i :: rest =>
      i :: nmsGo boxes t fuel
        (rest.filter fun j => iou (boxes.getD i ⟨0, 0, 0, 0⟩) (boxes.getD j ⟨0, 0, 0, 0⟩) ≤ t)

/-- `torchvision.ops.nms(boxes, scores, t)`: indices of the kept boxes
in decreasing-score order; a box is dropped when its IoU with a
higher-scoring kept box is strictly greater than `t`. -/
def nms (boxes : List Box) (scores : List ℚ) (t : ℚ) : List Nat :=
  let order := argsortDesc scores
  nmsGo boxes t order.length order

/-- `WrappedObjectDetectionModel.predict` (source lines 264-298): per
image, run the native model (`detections[0]` is the per-image result),
apply `torchvision.ops.nms` at `detection_error_threshold`, and emit
one `[label, x1, y1, x2, y2, score]` row per kept detection
(`torch.cat` of labels, boxes and scores along dim 1).  Tensor plumbing
(`ToTensor`, device moves, `unsqueeze`, `detach`) does not change the
values and is omitted. -/
def objDetPredict {α : Type} (model : α → List Detection) (dataset : List α) (t : ℚ) :
    List (List (List ℚ)) :=
  dataset.map fun image =>
    let prediction := (model image).getD 0 ⟨[], [], []⟩
    let keep := nms prediction.boxes prediction.scores t
    keep.map fun k =>
      let b := prediction.boxes.getD k ⟨0, 0, 0, 0⟩
      [prediction.labels.getD k 0, b.x1, b.y1, b.x2, b.y2, prediction.scores.getD k 0]

/-- The default `detection_error_threshold` of
`WrappedObjectDetectionModel.predict` (source line 264). -/
def predictDefaultThreshold : ℚ := 1 / 10

/-- The default `detection_error_threshold` of
`WrappedObjectDetectionModel.predict_proba` (source line 300). -/
def probaDefaultThreshold : ℚ := 1 / 20

/-- `WrappedObjectDetectionModel.predict_proba` (source lines 300-308):
call `predict` with the given threshold and keep only the trailing
score `pred[-1]` of each row. -/
def objDetPredictProba {α : Type} (model : α → List Detection) (dataset : List α) (t : ℚ) :
    List (List ℚ) :=
  (objDetPredict model dataset t).map fun imagePrediction =>
    imagePrediction.map fun pred => pred.getLastD 0

/-- Python's `s.endswith(p)`: `p` is a suffix of `s`, decided on the
character lists of the two strings. -/
def strEndsWith (s p : String) : Bool := List.isSuffixOf p.data s.data

/-- The suffix literal `FASTAI_MODEL_SUFFIX` (source line 42) matched
against the stringified model type. -/
def FASTAI_MODEL_SUFFIX : String := "fastai.learner.Learner\x27>"

/-- The stringified-type suffix of the AutoML-vision MLflow wrapper
checked on `model._model_impl.python_model` (source lines 94-96). -/
def MLFLOW_AUTOML_MODEL_SUFFIX : String :=
  "azureml.automl.dnn.vision.common.mlflow.mlflow_model_wrapper.MLFlowImagesModelWrapper\x27>"

/-- The exceptions relevant to the factory's try/except: the caught
`NameError` and `AttributeError` and an uncaught other exception. -/
inductive PyError : Type where
  | nameError
  | attributeError
  | otherError
deriving DecidableEq

/-- The model-task designators dispatched on by `_wrap_image_model`
(`ModelTask` members; other tasks collapse to `other`). -/
inductive ModelTask : Type where
  | imageClassification
  | multilabelImageClassification
  | objectDetection
  | other (s : String)
deriving DecidableEq

/-- Modelled from the spec: the outcome of the framework-native probe
(`WrappedPytorchModel` construction, `DatasetWrapper` wrapping and the
`_eval_model` evaluation prober, all outside this module's source):
either the resolved task string it returns, or the exception it
raises. -/
inductive ProbeOutcome : Type where
  | ok (domain : ModelTask)
  | raises (e : PyError)
deriving DecidableEq

/-- The structure of a supplied model object, as observed by the
factory's detector: the `isinstance(model, nn.Module)` check, the
outcome of the native probe (modelled from the spec, see
`ProbeOutcome`), `str(type(model))`, `hasattr(model, '_model_impl')`
and `str(type(model._model_impl.python_model))`. -/
structure PyModel where
  isNNModule : Bool
  probe : ProbeOutcome
  typeStr : String
  hasModelImpl : Bool
  modelImplInnerTypeStr : String
deriving DecidableEq

/-- `_is_fastai_model` (source lines 45-53):
`str(type(model)).endswith(FASTAI_MODEL_SUFFIX)`. -/
def isFastaiModel (m : PyModel) : Bool :=
  strEndsWith m.typeStr FASTAI_MODEL_SUFFIX

/-- The value of `_wrapped_model` returned by the factory: one of the
adapters, or `unchanged` when `_wrapped_model` is still the original
model object supplied by the caller. -/
inductive Wrapped : Type where
  | classification
  | fastaiWrapped (multilabel : Bool)
  | mlflowAutoml
  | transformer
  | objectDetectionWrapped
  | unchanged
deriving DecidableEq

/-- `_wrap_image_model(model, examples, model_task, is_function)`
(source lines 56-107).  `nnAvailable` records whether the module-level
`import torch.nn as nn` succeeded: when it did not, referencing
`nn.Module` raises a `NameError`, which the surrounding
`except (NameError, AttributeError)` catches.  The `try` body's probe is
condensed into `m.probe` (modelled from the spec); a probe raising
`NameError` or `AttributeError` is caught and execution falls through to
the fastai check, any other exception propagates (`Except.error`).  In
the image-classification chain: fastai suffix match wraps as fastai;
otherwise a model carrying `_model_impl` is wrapped as the MLflow
AutoML adapter only when the inner type string matches, and is left
unchanged otherwise; only a model without `_model_impl` falls to the
transformer default.  Multilabel classification wraps fastai models
only; object detection always wraps; any other task returns the model
unchanged.  The returned task is the probe's resolved domain on the
native path and the input `model_task` everywhere else. -/
def wrapImageModel (nnAvailable : Bool) (m : PyModel) (modelTask : ModelTask) :
    Except PyError (Wrapped × ModelTask) :=
  match modelTask with
  | .imageClassification =>
    let tryOutcome : Except PyError (Option (Wrapped × ModelTask)) :=
      if nnAvailable = true then
        if m.isNNModule = true then
          match m.probe with
          | .ok d => .ok (some (.classification, d))
          | .raises .nameError => .ok none
          | .raises .attributeError => .ok none
          | .raises .otherError => .error .otherError
        else .ok none
      else .ok none
    match tryOutcome with
    | .error e => .error e
    | .ok (some result) => .ok result
    | .ok none =>
      if isFastaiModel m then .ok (.fastaiWrapped false, modelTask)
      else if m.hasModelImpl then
        if strEndsWith m.modelImplInnerTypeStr MLFLOW_AUTOML_MODEL_SUFFIX then
          .ok (.mlflowAutoml, modelTask)
        else .ok (.unchanged, modelTask)
      else .ok (.transformer, modelTask)
  | .multilabelImageClassification =>
    if isFastaiModel m then .ok (.fastaiWrapped true, modelTask)
    else .ok (.unchanged, modelTask)
  | .objectDetection => .ok (.objectDetectionWrapped, modelTask)
  | .other s => .ok (.unchanged, .other s)

-- List helper shared by several claims.

theorem getD_map_fixed {α β : Type} (f : α → β) (l : List α) (d : α) (i : Nat) :
    (l.map f).getD i (f d) = f (l.getD i d) := by
  induction l generalizing i with
  | nil => simp [List.getD]
  | cons x xs ih => cases i <;> simp [List.getD, ih]

/-- A native detector producing, on any image, two boxes whose IoU is
`13/187 ≈ 0.0695` — strictly between `predict_proba`'s default
threshold `0.05` and `predict`'s default threshold `0.1` — with
distinct scores `0.9` and `0.8`. -/
def nmsGapModel : Nat → List Detection := fun _ =>
  [⟨[⟨0, 0, 100, 100⟩, ⟨87, 0, 187, 100⟩], [9 / 10, 8 / 10], [1, 2]⟩]

/-- C1 (counterexample): with each operation at its own default
threshold (`predict` at 0.1, `predict_proba` at 0.05), the
object-detection adapter's `predict_proba` does NOT equal the trailing
score column of `predict`: at IoU 13/187 the 0.05-threshold suppression
drops the lower-scoring box that the 0.1-threshold call keeps, so the
score lists have different lengths. -/
theorem objdet_default_thresholds_break_trailing_column :
    objDetPredictProba nmsGapModel [0] probaDefaultThreshold ≠
      (objDetPredict nmsGapModel [0] predictDefaultThreshold).map
        (fun imagePrediction => imagePrediction.map fun pred => pred.getLastD 0) := by
  norm_num [objDetPredictProba, objDetPredict, nmsGapModel, nms, nmsGo, argsortDesc,
    insertByScore, iou, List.range_succ, probaDefaultThreshold, predictDefaultThreshold]

/-- C1 (amended): the equality does hold once `predict` is invoked at
`predict_proba`'s own default threshold 0.05 — for every model and
batch, `predict_proba(batch)` (default 0.05) is exactly the per-image
list of trailing scores of `predict(batch, 0.05)`. -/
theorem objdet_proba_is_trailing_column_at_shared_threshold {α : Type}
    (model : α → List Detection) (dataset : List α) :
    objDetPredictProba model dataset probaDefaultThreshold =
      (objDetPredict model dataset probaDefaultThreshold).map
        (fun imagePrediction => imagePrediction.map fun pred => pred.getLastD 0) := rfl

/-- C10: for every threshold `t` passed identically to both operations,
the i-th entry of `predict_proba(batch, t)` is the list of trailing
score entries of the rows of the i-th entry of `predict(batch, t)`
(also for out-of-range `i`, where both sides are empty). -/
theorem objdet_proba_trailing_pointwise {α : Type} (model : α → List Detection)
    (dataset : List α) (t : ℚ) (i : Nat) :
    (objDetPredictProba model dataset t).getD i [] =
      ((objDetPredict model dataset t).getD i []).map fun pred => pred.getLastD 0 := by
  have h := getD_map_fixed (fun imagePrediction : List (List ℚ) =>
    imagePrediction.map fun pred => pred.getLastD 0) (objDetPredict model dataset t) [] i
  simpa [objDetPredictProba] using h

/-- C5: for the MLflow AutoML-vision adapter, the i-th predicted class
is the arg-max of the i-th probability row (first maximum, as
`np.argmax`), and `predict_proba` is exactly the native `probs` column
stacked with rows in input order (also at out-of-range `i`, where both
sides take the defaults). -/
theorem mlflow_predict_is_argmax_of_proba {β : Type} (model : List β → List (List ℚ))
    (dataset : List β) (i : Nat) :
    (mlflowPredict model dataset).getD i 0 =
      argmaxIdx ((mlflowPredictProba model dataset).getD i []) ∧
    mlflowPredictProba model dataset = model dataset := by
  refine ⟨?_, rfl⟩
  have h := getD_map_fixed argmaxIdx (model dataset) [] i
  simpa [mlflowPredict, mlflowPredictProba, argmaxIdx] using h

-- Lemmas relating the code's `axis=1` arg-max to the spec's last-axis
-- arg-max on 2-d arrays.

theorem npArgmaxLastAxis_of_row (row : NDArray ℚ) (h : rowOfScalars row = true) :
    npArgmaxLastAxis row = .scalar ((argmaxIdx (topVals row) : ℕ) : ℚ) := by
  cases row with
  | scalar q => simp [rowOfScalars] at h
  | node xs =>
    cases xs with
    | nil => simp [rowOfScalars] at h
    | cons x xs =>
      cases x with
      | scalar q => simp [npArgmaxLastAxis, topVals, sval]
      | node ys => simp [rowOfScalars, isScalar] at h

theorem npArgmaxLastAxisList_of_rows (rows : List (NDArray ℚ))
    (h : rows.all rowOfScalars = true) :
    npArgmaxLastAxisList rows =
      rows.map fun row => .scalar ((argmaxIdx (topVals row) : ℕ) : ℚ) := by
  induction rows with
  | nil => rfl
  | cons r rs ih =>
    simp only [List.all_cons, Bool.and_eq_true] at h
    simp [npArgmaxLastAxisList, npArgmaxLastAxis_of_row r h.1, ih h.2]

/-- C8: for the generic transformer adapter, whenever the native call's
raw output is a 2-d batch of nonempty per-class score rows (the shape
the classification contract supplies), `predict` — the code's
`np.argmax(..., axis=1)` — equals the arg-max over the LAST axis of the
raw output, and `predict_proba` returns the raw output unchanged. -/
theorem transformer_predict_argmax_last_axis {β : Type} (model : β → NDArray ℚ)
    (dataset : β) (h : is2D (model dataset) = true) :
    transformerPredict model dataset = npArgmaxLastAxis (model dataset) ∧
    transformerPredictProba model dataset = model dataset := by
  refine ⟨?_, rfl⟩
  unfold transformerPredict npArgmaxAxis1
  cases hmd : model dataset with
  | scalar q => rw [hmd] at h; simp [is2D] at h
  | node rows =>
    rw [hmd] at h
    simp only [is2D] at h
    cases rows with
    | nil => simp [npArgmaxLastAxis]
    | cons r rs =>
      simp only [List.all_cons, Bool.and_eq_true] at h
      have hr := h.1
      cases r with
      | scalar q => simp [rowOfScalars] at hr
      | node ys =>
        cases ys with
        | nil => simp [rowOfScalars] at hr
        | cons y ys =>
          show NDArray.node _ = npArgmaxLastAxis (.node (NDArray.node (y :: ys) :: rs))
          rw [npArgmaxLastAxis]
          rw [npArgmaxLastAxisList_of_rows (NDArray.node (y :: ys) :: rs)
            (by simp [List.all_cons, hr, h.2])]

/-- A concrete transformer-style native model used by the witnesses: a
constant 2 × 2 batch of scores. -/
def cTransformerModel : Unit → NDArray ℚ := fun _ =>
  .node [.node [.scalar 1, .scalar 3], .node [.scalar 5, .scalar 2]]

/-- Witness for C8 at a concrete model whose raw output is 2-d. -/
theorem transformer_predict_argmax_last_axis_witness :
    is2D (cTransformerModel ()) = true ∧
    (transformerPredict cTransformerModel () = npArgmaxLastAxis (cTransformerModel ()) ∧
      transformerPredictProba cTransformerModel () = cTransformerModel ()) :=
  ⟨by decide, transformer_predict_argmax_last_axis cTransformerModel () (by decide)⟩

/-- A model object carrying the `_model_impl` attribute whose inner
python model's type does NOT match the AutoML-vision signature: not a
native nn.Module, not fastai-suffixed. -/
def sklearnPipelineModel : PyModel :=
  ⟨false, .raises .otherError, "<class \x27sklearn.pipeline.Pipeline\x27>", true,
    "<class \x27mlflow.pyfunc.model.PythonModelWrapper\x27>"⟩

/-- A plain callable/unknown model object: not a native nn.Module, not
fastai-suffixed, without a `_model_impl` attribute. -/
def plainFunctionModel : PyModel :=
  ⟨false, .raises .otherError, "<class \x27function\x27>", false, ""⟩

/-- A fastai learner that is not a native nn.Module. -/
def fastaiLearnerModel : PyModel :=
  ⟨false, .raises .otherError, "<class \x27fastai.learner.Learner\x27>", false, ""⟩

/-- A model that is both a native nn.Module and fastai-suffixed, whose
native probe succeeds with a resolved domain. -/
def nativeFastaiOkModel : PyModel :=
  ⟨true, .ok .imageClassification, "<class \x27fastai.learner.Learner\x27>", false, ""⟩

/-- As `nativeFastaiOkModel` but with the native probe raising
`NameError`. -/
def nativeFastaiNameErrModel : PyModel :=
  ⟨true, .raises .nameError, "<class \x27fastai.learner.Learner\x27>", false, ""⟩

/-- As `nativeFastaiOkModel` but with the native probe raising
`AttributeError`. -/
def nativeFastaiAttrErrModel : PyModel :=
  ⟨true, .raises .attributeError, "<class \x27fastai.learner.Learner\x27>", false, ""⟩

/-- C2 (counterexample): a single-label-classification model that is
not a native module, not fastai-suffixed and not an MLflow AutoML
vision model is NOT always wrapped in the generic-transformer adapter:
when it carries the `_model_impl` attribute with a non-matching inner
type, the `elif` chain leaves it unchanged. -/
theorem wrap_model_impl_mismatch_left_unchanged :
    wrapImageModel true sklearnPipelineModel .imageClassification =
      .ok (.unchanged, .imageClassification) ∧
    Wrapped.unchanged ≠ Wrapped.transformer :=
  ⟨rfl, by decide⟩

/-- C2 (amended): for single-label image classification, a model on
which the native path does not return (framework unavailable, not an
nn.Module, or probe raising a caught error), not fastai-suffixed, and
WITHOUT the `_model_impl` attribute is wrapped in the
generic-transformer adapter (a model with `_model_impl` and a
non-matching inner type is instead left unchanged); for multi-label
classification only the fastai branch applies; for object detection the
object-detection adapter is always constructed. -/
theorem wrap_dispatch_amended :
    (∀ (nnAvailable : Bool) (m : PyModel),
        (nnAvailable = false ∨ m.isNNModule = false ∨
          m.probe = .raises .nameError ∨ m.probe = .raises .attributeError) →
        isFastaiModel m = false → m.hasModelImpl = false →
        wrapImageModel nnAvailable m .imageClassification =
          .ok (.transformer, .imageClassification)) ∧
    (∀ (nnAvailable : Bool) (m : PyModel),
        (isFastaiModel m = true →
          wrapImageModel nnAvailable m .multilabelImageClassification =
            .ok (.fastaiWrapped true, .multilabelImageClassification)) ∧
        (isFastaiModel m = false →
          wrapImageModel nnAvailable m .multilabelImageClassification =
            .ok (.unchanged, .multilabelImageClassification))) ∧
    (∀ (nnAvailable : Bool) (m : PyModel),
        wrapImageModel nnAvailable m .objectDetection =
          .ok (.objectDetectionWrapped, .objectDetection)) := by
  refine ⟨?_, ?_, ?_⟩
  · intro nnAvailable m h hfast himpl
    rcases h with h | h | h | h <;>
      cases hnn : nnAvailable <;> cases hmod : m.isNNModule <;>
        simp_all [wrapImageModel]
  · intro nnAvailable m
    constructor <;> intro h <;> simp [wrapImageModel, h]
  · intro nnAvailable m
    rfl

/-- Witness for C2 (amended) at concrete models. -/
theorem wrap_dispatch_amended_witness :
    wrapImageModel true plainFunctionModel .imageClassification =
      .ok (.transformer, .imageClassification) ∧
    wrapImageModel true fastaiLearnerModel .multilabelImageClassification =
      .ok (.fastaiWrapped true, .multilabelImageClassification) ∧
    wrapImageModel true plainFunctionModel .multilabelImageClassification =
      .ok (.unchanged, .multilabelImageClassification) ∧
    wrapImageModel true plainFunctionModel .objectDetection =
      .ok (.objectDetectionWrapped, .objectDetection) :=
  ⟨wrap_dispatch_amended.1 true plainFunctionModel (Or.inr (Or.inl rfl)) (by decide) rfl,
    (wrap_dispatch_amended.2.1 true fastaiLearnerModel).1 (by decide),
    (wrap_dispatch_amended.2.1 true plainFunctionModel).2 (by decide),
    wrap_dispatch_amended.2.2 true plainFunctionModel⟩

/-- C4: for every model/task combination matching none of the adapter
rules — multi-label classification with a non-fastai model, a task
outside the three image tasks, or single-label classification with a
`_model_impl`-bearing model whose inner type does not match — the
factory returns the original model object (`unchanged`) and the
original task, with no exception (`Except.ok`). -/
theorem wrap_noop_fallback :
    (∀ (nnAvailable : Bool) (m : PyModel),
        isFastaiModel m = false →
        wrapImageModel nnAvailable m .multilabelImageClassification =
          .ok (.unchanged, .multilabelImageClassification)) ∧
    (∀ (nnAvailable : Bool) (m : PyModel) (s : String),
        wrapImageModel nnAvailable m (.other s) = .ok (.unchanged, .other s)) ∧
    (∀ (nnAvailable : Bool) (m : PyModel),
        (nnAvailable = false ∨ m.isNNModule = false ∨
          m.probe = .raises .nameError ∨ m.probe = .raises .attributeError) →
        isFastaiModel m = false → m.hasModelImpl = true →
        strEndsWith m.modelImplInnerTypeStr MLFLOW_AUTOML_MODEL_SUFFIX = false →
        wrapImageModel nnAvailable m .imageClassification =
          .ok (.unchanged, .imageClassification)) := by
  refine ⟨?_, ?_, ?_⟩
  · intro nnAvailable m h
    simp [wrapImageModel, h]
  · intro nnAvailable m s
    rfl
  · intro nnAvailable m h hfast himpl hinner
    rcases h with h | h | h | h <;>
      cases hnn : nnAvailable <;> cases hmod : m.isNNModule <;>
        simp_all [wrapImageModel]

/-- Witness for C4 at concrete models. -/
theorem wrap_noop_fallback_witness :
    wrapImageModel true plainFunctionModel .multilabelImageClassification =
      .ok (.unchanged, .multilabelImageClassification) ∧
    wrapImageModel true plainFunctionModel (.other "text_classification") =
      .ok (.unchanged, .other "text_classification") ∧
    wrapImageModel true sklearnPipelineModel .imageClassification =
      .ok (.unchanged, .imageClassification) :=
  ⟨wrap_noop_fallback.1 true plainFunctionModel (by decide),
    wrap_noop_fallback.2.1 true plainFunctionModel "text_classification",
    wrap_noop_fallback.2.2 true sklearnPipelineModel (Or.inr (Or.inl rfl)) (by decide) rfl
      (by decide)⟩

/-- C7: for a single-label-classification model that is both a native
nn.Module and fastai-suffixed, the native path is attempted first (a
successful probe yields the native classification wrapper and its
resolved domain, fastai match notwithstanding), and a `NameError` or
`AttributeError` raised by the probe is caught and falls through to the
fastai branch instead of propagating. -/
theorem wrap_native_precedence_and_catch (m : PyModel) (d : ModelTask)
    (hnn : m.isNNModule = true) (hfast : isFastaiModel m = true) :
    (m.probe = .ok d →
      wrapImageModel true m .imageClassification = .ok (.classification, d)) ∧
    (m.probe = .raises .nameError →
      wrapImageModel true m .imageClassification =
        .ok (.fastaiWrapped false, .imageClassification)) ∧
    (m.probe = .raises .attributeError →
      wrapImageModel true m .imageClassification =
        .ok (.fastaiWrapped false, .imageClassification)) := by
  refine ⟨?_, ?_, ?_⟩ <;> intro hp <;> simp [wrapImageModel, hnn, hp, hfast]

/-- Witness for C7 at concrete native-and-fastai models: probe success,
probe `NameError` and probe `AttributeError`. -/
theorem wrap_native_precedence_and_catch_witness :
    wrapImageModel true nativeFastaiOkModel .imageClassification =
      .ok (.classification, .imageClassification) ∧
    wrapImageModel true nativeFastaiNameErrModel .imageClassification =
      .ok (.fastaiWrapped false, .imageClassification) ∧
    wrapImageModel true nativeFastaiAttrErrModel .imageClassification =
      .ok (.fastaiWrapped false, .imageClassification) :=
  ⟨(wrap_native_precedence_and_catch nativeFastaiOkModel .imageClassification rfl
      (by decide)).1 rfl,
    (wrap_native_precedence_and_catch nativeFastaiNameErrModel .imageClassification rfl
      (by decide)).2.1 rfl,
    (wrap_native_precedence_and_catch nativeFastaiAttrErrModel .imageClassification rfl
      (by decide)).2.2 rfl⟩

theorem scalars_node (α : Type) (l : List (NDArray α)) :
    scalars (.node l) = scalarsList l := by
  rw [scalars]

/-- C3: for the fastai adapter on a 4-d batch, batch prediction is
assembled from the independent per-image predictions in input order:
the entries of `predict(batch)` are the concatenation, in batch order,
of the entries of `predict(image)` for each 3-d image (the element-wise
stack; the single-label path additionally flattens that stack, claim
C6), and `predict_proba(batch)` is exactly the element-wise stack of
the per-image `predict_proba` results. -/
theorem fastai_batch_equiv (m : FastaiModel) (multilabel : Bool) (r : NDArray PVal)
    (rs : List (NDArray PVal)) (h : ndim r = 3) :
    scalars (fastaiPredict m multilabel (.node (r :: rs))) =
      ((r :: rs).map fun img => scalars (fastaiPredict m multilabel img)).flatten ∧
    fastaiPredictProba m multilabel (.node (r :: rs)) =
      .node ((r :: rs).map (fastaiPredictProba m multilabel)) := by
  have h4 : ndim (NDArray.node (r :: rs)) = 4 := by simp [ndim, h]
  constructor
  · show scalars (fastaiPredictAux m multilabel 1 (.node (r :: rs))) = _
    rw [fastaiPredictAux, if_pos h4]
    cases multilabel with
    | false =>
      rw [if_pos ⟨rfl, rfl⟩, scalars_npFlatten, scalars_node, fastaiPredictList_eq_map,
        scalarsList_eq_join, List.map_map]
      simp [fastaiPredict, Function.comp_def]
    | true =>
      rw [if_neg (by simp), scalars_node, fastaiPredictList_eq_map, scalarsList_eq_join,
        List.map_map]
      simp [fastaiPredict, Function.comp_def]
  · show fastaiPredictAux m multilabel 2 (.node (r :: rs)) = _
    rw [fastaiPredictAux, if_pos h4, if_neg (by simp), fastaiPredictList_eq_map]
    simp [fastaiPredictProba]

/-- A concrete fastai learner for the witnesses: on any single image,
index 1 of the native result tuple is the scalar class `3` and index 2
is a 2-entry probability vector. -/
def cFastaiModel : FastaiModel :=
  ⟨fun _ => [.node [], .scalar (.pint 3),
             .node [.scalar (.prat (3 / 10)), .scalar (.prat (7 / 10))]]⟩

/-- A concrete 3-d image (shape 1 × 1 × 1). -/
def cImage : NDArray PVal := .node [.node [.node [.scalar (.prat 0)]]]

/-- Witness for C3 at a concrete model and 2-image batch. -/
theorem fastai_batch_equiv_witness :
    ndim cImage = 3 ∧
    (scalars (fastaiPredict cFastaiModel false (.node [cImage, cImage])) =
        (([cImage, cImage]).map fun img =>
          scalars (fastaiPredict cFastaiModel false img)).flatten ∧
      fastaiPredictProba cFastaiModel false (.node [cImage, cImage]) =
        .node (([cImage, cImage]).map (fastaiPredictProba cFastaiModel false))) :=
  ⟨rfl, fastai_batch_equiv cFastaiModel false cImage [cImage] rfl⟩

/-- C6: on a 4-d batch, the fastai adapter's discrete predictions keep
their per-class dimensionality in multilabel mode (the bare stack of
per-image results, of dimension one more than a per-image result),
while single-label mode flattens the stack to dimension 1; the
probability output (`index 2`) is never flattened in either mode. -/
theorem fastai_multilabel_keeps_dims (m : FastaiModel) (r : NDArray PVal)
    (rs : List (NDArray PVal)) (h : ndim r = 3) :
    fastaiPredict m true (.node (r :: rs)) =
      .node ((r :: rs).map (fastaiPredictAux m true 1)) ∧
    fastaiPredict m false (.node (r :: rs)) =
      npFlatten (.node ((r :: rs).map (fastaiPredictAux m false 1))) ∧
    (∀ multilabel : Bool, fastaiPredictProba m multilabel (.node (r :: rs)) =
      .node ((r :: rs).map (fastaiPredictAux m multilabel 2))) ∧
    ndim (fastaiPredict m false (.node (r :: rs))) = 1 ∧
    ndim (fastaiPredict m true (.node (r :: rs))) =
      1 + ndim (fastaiPredictAux m true 1 r) := by
  have h4 : ndim (NDArray.node (r :: rs)) = 4 := by simp [ndim, h]
  have hml : fastaiPredict m true (.node (r :: rs)) =
      .node ((r :: rs).map (fastaiPredictAux m true 1)) := by
    show fastaiPredictAux m true 1 (.node (r :: rs)) = _
    rw [fastaiPredictAux, if_pos h4, if_neg (by simp), fastaiPredictList_eq_map]
  have hsl : fastaiPredict m false (.node (r :: rs)) =
      npFlatten (.node ((r :: rs).map (fastaiPredictAux m false 1))) := by
    show fastaiPredictAux m false 1 (.node (r :: rs)) = _
    rw [fastaiPredictAux, if_pos h4, if_pos ⟨rfl, rfl⟩, fastaiPredictList_eq_map]
  refine ⟨hml, hsl, ?_, ?_, ?_⟩
  · intro multilabel
    show fastaiPredictAux m multilabel 2 (.node (r :: rs)) = _
    rw [fastaiPredictAux, if_pos h4, if_neg (by simp), fastaiPredictList_eq_map]
  · rw [hsl, ndim_npFlatten]
  · rw [hml]
    simp [ndim]

/-- Witness for C6 at a concrete model and 1-image batch. -/
theorem fastai_multilabel_keeps_dims_witness :
    fastaiPredict cFastaiModel true (.node [cImage]) =
      .node (([cImage]).map (fastaiPredictAux cFastaiModel true 1)) ∧
    fastaiPredict cFastaiModel false (.node [cImage]) =
      npFlatten (.node (([cImage]).map (fastaiPredictAux cFastaiModel false 1))) ∧
    (∀ multilabel : Bool, fastaiPredictProba cFastaiModel multilabel (.node [cImage]) =
      .node (([cImage]).map (fastaiPredictAux cFastaiModel multilabel 2))) ∧
    ndim (fastaiPredict cFastaiModel false (.node [cImage])) = 1 ∧
    ndim (fastaiPredict cFastaiModel true (.node [cImage])) =
      1 + ndim (fastaiPredictAux cFastaiModel true 1 cImage) :=
  fastai_multilabel_keeps_dims cFastaiModel cImage [] rfl

theorem flatten_length_all_one {α β : Type} (l : List α) (f : α → List β)
    (h : ∀ x ∈ l, (f x).length = 1) : ((l.map f).flatten).length = l.length := by
  induction l with
  | nil => rfl
  | cons x xs ih =>
    have hx := h x (List.mem_cons_self x xs)
    have hxs := ih fun y hy => h y (List.mem_cons_of_mem x hy)
    simp [hx, hxs, Nat.add_comm]

/-- C9: each adapter defined in this module returns one output per
input image.  Transformer and MLflow adapters delegate batching to the
native model, so the native output is assumed to have one row per input
(their documented contract); the fastai adapter iterates the batch
itself (its single-label `predict` yields length N when each per-image
discrete prediction holds exactly one entry, as a class label does);
the object-detection adapter iterates the batch unconditionally. -/
theorem adapters_preserve_batch_length :
    (∀ (β : Type) (model : List β → NDArray ℚ) (dataset : List β)
        (rows : List (NDArray ℚ)),
        model dataset = .node rows → rows.length = dataset.length →
        nlen (transformerPredict model dataset) = dataset.length ∧
        nlen (transformerPredictProba model dataset) = dataset.length) ∧
    (∀ (m : FastaiModel) (r : NDArray PVal) (rs : List (NDArray PVal)),
        ndim r = 3 →
        nlen (fastaiPredict m true (.node (r :: rs))) = (r :: rs).length ∧
        (∀ multilabel : Bool,
          nlen (fastaiPredictProba m multilabel (.node (r :: rs))) = (r :: rs).length) ∧
        ((∀ img ∈ r :: rs, (scalars (fastaiPredictAux m false 1 img)).length = 1) →
          nlen (fastaiPredict m false (.node (r :: rs))) = (r :: rs).length)) ∧
    (∀ (β : Type) (model : List β → List (List ℚ)) (dataset : List β),
        (model dataset).length = dataset.length →
        (mlflowPredict model dataset).length = dataset.length ∧
        (mlflowPredictProba model dataset).length = dataset.length) ∧
    (∀ (β : Type) (model : β → List Detection) (dataset : List β) (t : ℚ),
        (objDetPredict model dataset t).length = dataset.length ∧
        (objDetPredictProba model dataset t).length = dataset.length) := by
  refine ⟨?_, ?_, ?_, ?_⟩
  · intro β model dataset rows hm hlen
    constructor
    · show nlen (npArgmaxAxis1 (model dataset)) = _
      rw [hm]
      simpa [npArgmaxAxis1, nlen] using hlen
    · show nlen (model dataset) = _
      rw [hm]
      simpa [nlen] using hlen
  · intro m r rs h
    have h4 : ndim (NDArray.node (r :: rs)) = 4 := by simp [ndim, h]
    refine ⟨?_, ?_, ?_⟩
    · show nlen (fastaiPredictAux m true 1 (.node (r :: rs))) = _
      rw [fastaiPredictAux, if_pos h4, if_neg (by simp), fastaiPredictList_eq_map]
      simp [nlen]
    · intro multilabel
      show nlen (fastaiPredictAux m multilabel 2 (.node (r :: rs))) = _
      rw [fastaiPredictAux, if_pos h4, if_neg (by simp), fastaiPredictList_eq_map]
      simp [nlen]
    · intro hone
      show nlen (fastaiPredictAux m false 1 (.node (r :: rs))) = _
      rw [fastaiPredictAux, if_pos h4, if_pos ⟨rfl, rfl⟩, fastaiPredictList_eq_map]
      show ((scalars (NDArray.node ((r :: rs).map (fastaiPredictAux m false 1)))).map
        NDArray.scalar).length = _
      rw [List.length_map, scalars_node, scalarsList_eq_join, List.map_map]
      exact flatten_length_all_one (r :: rs) (scalars ∘ fastaiPredictAux m false 1) hone
  · intro β model dataset hlen
    exact ⟨by simpa [mlflowPredict] using hlen, hlen⟩
  · intro β model dataset t
    constructor
    · simp [objDetPredict]
    · simp [objDetPredictProba, objDetPredict]

/-- A concrete batch-capable transformer native model returning one row
per input image of a 2-image batch. -/
def cBatchTransformerModel : List Nat → NDArray ℚ := fun _ =>
  .node [.node [.scalar 1], .node [.scalar 2]]

/-- A concrete MLflow AutoML native model returning one `probs` row for
a 1-image batch. -/
def cMlflowModel : List Nat → List (List ℚ) := fun _ => [[1, 2]]

/-- Witness for C9 at concrete models and batches for all four
adapters. -/
theorem adapters_preserve_batch_length_witness :
    (nlen (transformerPredict cBatchTransformerModel [5, 6]) = 2 ∧
      nlen (transformerPredictProba cBatchTransformerModel [5, 6]) = 2) ∧
    (nlen (fastaiPredict cFastaiModel true (.node [cImage])) = 1 ∧
      nlen (fastaiPredict cFastaiModel false (.node [cImage])) = 1) ∧
    ((mlflowPredict cMlflowModel [7]).length = 1 ∧
      (mlflowPredictProba cMlflowModel [7]).length = 1) ∧
    ((objDetPredict nmsGapModel [0] 1).length = 1 ∧
      (objDetPredictProba nmsGapModel [0] 1).length = 1) :=
  ⟨adapters_preserve_batch_length.1 Nat cBatchTransformerModel [5, 6]
      [.node [.scalar 1], .node [.scalar 2]] rfl rfl,
    ⟨(adapters_preserve_batch_length.2.1 cFastaiModel cImage [] rfl).1,
      (adapters_preserve_batch_length.2.1 cFastaiModel cImage [] rfl).2.2 (by
        intro img himg
        simp only [List.mem_singleton] at himg
        subst himg
        simp [fastaiPredictAux, fastaiSingle, cFastaiModel, cImage, ndim, scalars,
          scalarsList, dtypeIsBool, pvalIsBool, astypeInt, astypeIntList])⟩,
    adapters_preserve_batch_length.2.2.1 Nat cMlflowModel [7] rfl,
    adapters_preserve_batch_length.2.2.2 Nat nmsGapModel [0] 1⟩
